import Mathlib

/-!
Verification development for the agent-flow-framework orchestration engine.

Shallow embedding conventions:
  * Python dictionaries of session state are modelled by their lookup
    function `String → Option String`.
  * Ordered YAML mappings (a domain's intent table) are association lists,
    because the router iterates them in declared order.
  * The asynchronous completion capability is an oracle
    `String → Except String String` from prompt to reply-or-failure.
  * Library JSON parsing (`json.loads`) is an oracle from the raw text to
    the parsed shape, `none` meaning a decode error was raised.
  * Machine floats that only ever hold small decimal thresholds are
    modelled as rationals.
  * Raised exceptions are `Except PyErr`.
-/

namespace AgentFlow

/-- Python exception values raised or caught by the orchestrator code
(core/exceptions.py subclasses and the relevant built-ins). -/
inductive PyErr where
  | configError (msg : String)
  | nodeError (msg : String)
  | memoryError (msg : String)
  | valueError (msg : String)
  | keyError (msg : String)
  | attributeError (msg : String)
  deriving Repr, DecidableEq

/-- Python `str(e)`. `MCPError.__init__` prepends the class name to the
message; built-in exceptions render their argument (`KeyError` quotes it). -/
def PyErr.str : PyErr → String
  | .configError m => "ConfigError: " ++ m
  | .nodeError m => "NodeError: " ++ m
  | .memoryError m => "MemoryError: " ++ m
  | .valueError m => m
  | .keyError m => "'" ++ m ++ "'"
  | .attributeError m => m

/-- Python `a or b` on strings: an empty (falsy) `a` yields `b`. -/
def pyOrS (a b : String) : String := if a = "" then b else a

/-- Session-state dictionary, modelled by its lookup function. -/
abbrev SDict := String → Option String

/-- Python substring containment (the `in` operator on strings), on
character lists. -/
def isSubstrB (needle : List Char) : List Char → Bool
  | [] => needle.isEmpty
  | c :: t => needle.isPrefixOf (c :: t) || isSubstrB needle t

/-- Python `str.lower()` (character-wise lowercasing). -/
def strLower (s : String) : String := ⟨s.data.map Char.toLower⟩

/-- Python `str.strip()`: remove leading and trailing whitespace. -/
def strTrim (s : String) : String :=
  ⟨((s.data.dropWhile Char.isWhitespace).reverse.dropWhile Char.isWhitespace).reverse⟩

/-! ## Intent router (`src/orchestrator/agent_router.py`) -/

/-- One value of an `intents.yaml` table: `meta.get("keywords", [])` and
`meta.get("description", "")`, so both keys are optional. -/
structure IntentMeta where
  keywords : Option (List String)
  description : Option String
  deriving Repr, DecidableEq

/-- A domain's intent table, in declared order. -/
abbrev IntentTable := List (String × IntentMeta)

/-- Route decision returned by `AgentRouter.classify_intent`. The
`matched_keyword` key is only present on the rule branch. -/
structure RouteResult where
  domain : String
  intent : String
  confidence : ℚ
  method : String
  matched_keyword : Option String := none
  deriving Repr, DecidableEq

/-- Shape of a successfully decoded classifier reply: a JSON object whose
`intent` and `confidence` members may each be absent. -/
structure RouteParsed where
  intent : Option String
  confidence : Option ℚ
  deriving Repr, DecidableEq

/-- Outcome of `json.loads` on classifier output: an object, or some other
JSON value (on which the subsequent `.get` raises `AttributeError`). -/
inductive RouteJson where
  | obj (p : RouteParsed)
  | nonObj
  deriving Repr, DecidableEq

/-- `AgentRouter._safe_parse`: decode errors are swallowed and replaced by
the literal fallback `{"intent": "qa", "confidence": 0.5}`. -/
def safe_parse (jsonLoads : String → Option RouteJson) (raw : String) : RouteJson :=
  match jsonLoads raw with
  | some v => v
  | none => .obj ⟨some "qa", some (1/2)⟩

/-- Python `repr` of a list of strings, as interpolated into the prompt. -/
def pyListRepr (xs : List String) : String :=
  "[" ++ String.intercalate ", " (xs.map (fun s => "'" ++ s ++ "'")) ++ "]"

/-- `AgentRouter._build_llm_prompt`. -/
def build_llm_prompt (query domain : String) (intents : IntentTable) : String :=
  let options := pyListRepr (intents.map Prod.fst)
  let descs := intents.map (fun p => p.1 ++ ": " ++ (p.2.description.getD ""))
  "\n        You are an intent classifier for the domain '" ++ domain ++
  "'.\n\n        Possible intents: " ++ options ++
  "\n\n        Descriptions:\n        " ++ String.intercalate "\n" descs ++
  "\n\n        Task:\n        Identify which intent best fits this user query." ++
  "\n        Return ONLY JSON in this structure:\n        \x7b\n          \"intent\": \"<one of " ++
  options ++ ">\",\n          \"confidence\": float (0.0 - 1.0)\n        \x7d\n\n        Query: " ++
  query ++ "\n        "

/-- Rule pass of `classify_intent`: the nested loop over intents in table
order and keywords in declared order, returning the first pair whose
lower-cased keyword is a substring of the prepared query. -/
def firstRuleMatch (intents : IntentTable) (queryLower : String) :
    Option (String × String) :=
  match intents with
  | [] => none
  | (i, m) :: rest =>
    match (m.keywords.getD []).find?
        (fun kw => isSubstrB (strLower kw).data queryLower.data) with
    | some kw => some (i, kw)
    | none => firstRuleMatch rest queryLower

/-- Default fallback route of `classify_intent` (step 3). -/
def default_route (domain : String) : RouteResult :=
  { domain := domain, intent := "qa", confidence := 1/2, method := "default" }

/-- Domain resolution at the top of `classify_intent`: a falsy argument is
replaced by the default domain, and an unknown domain falls back to the
default domain. -/
def resolve_domain (intentConfigs : String → Option IntentTable)
    (defaultDomain : String) (domainArg : Option String) : String :=
  let d0 := pyOrS (domainArg.getD "") defaultDomain
  if (intentConfigs d0).isSome then d0 else defaultDomain

/-- `AgentRouter.classify_intent`. The second component of the result
records whether the completion capability was invoked. A `KeyError` is
possible when even the default domain has no intent table. -/
def classify_intent (intentConfigs : String → Option IntentTable)
    (defaultDomain : String) (llm : String → Except String String)
    (jsonLoads : String → Option RouteJson) (query : String)
    (domainArg : Option String) : Except PyErr (RouteResult × Bool) :=
  let d := resolve_domain intentConfigs defaultDomain domainArg
  match intentConfigs d with
  | none => .error (.keyError d)
  | some intents =>
    let queryLower := strTrim (strLower query)
    match firstRuleMatch intents queryLower with
    | some p =>
      .ok ({ domain := d, intent := p.1, confidence := 1, method := "rule",
             matched_keyword := some p.2 }, false)
    | none =>
      let res :=
        match llm (build_llm_prompt query d intents) with
        | .error _ => default_route d
        | .ok raw =>
          match safe_parse jsonLoads raw with
          | .nonObj => default_route d
          | .obj p =>
            match p.intent with
            | some i =>
              if i = "" then default_route d
              else { domain := d, intent := i,
                     confidence := p.confidence.getD (4/5), method := "llm" }
            | none => default_route d
      .ok (res, true)

/-! ## Reflection node (`src/orchestrator/reflection_node.py`) -/

/-- Shape of a successfully decoded reviewer reply. -/
structure ReflParsed where
  score : Option ℚ
  decision : Option String
  comment : Option String
  deriving Repr, DecidableEq

/-- Outcome of `json.loads` on reviewer output. -/
inductive ReflJson where
  | obj (p : ReflParsed)
  | nonObj
  deriving Repr, DecidableEq

/-- Evaluation result dictionary returned by `ReflectionNode.run`; the
`clarify_question` key is only present on the reask branch. -/
structure ReflReport where
  decision : String
  score : ℚ
  comment : String
  clarify_question : Option String := none
  deriving Repr, DecidableEq

/-- `ReflectionNode._safe_parse`: the raw text is stripped, then decoded;
a decode error is swallowed and replaced by the literal default
`{"score": 0.8, "decision": "ok", "comment": "Could not parse; assumed OK."}`. -/
def refl_safe_parse (jsonLoads : String → Option ReflJson) (raw : String) : ReflJson :=
  match jsonLoads (strTrim raw) with
  | some v => v
  | none => .obj ⟨some (4/5), some "ok", some "Could not parse; assumed OK."⟩

/-- Review prompt built by `ReflectionNode.run`. -/
def review_prompt (query answer : String) : String :=
  "\n        You are a strict evaluator of AI responses.\n\n        " ++
  "Evaluate the assistant's answer for the given question.\n\n        Question: " ++
  query ++ "\n        Answer: " ++ answer ++
  "\n\n        Return JSON:\n        \x7b\n          \"score\": float (0.0 - 1.0)," ++
  "\n          \"decision\": \"ok\" or \"reask\"," ++
  "\n          \"comment\": \"Explain your reasoning in one line.\"\n        \x7d\n        "

/-- Prompt built by `ReflectionNode._generate_clarification`. -/
def clarify_prompt (query : String) : String :=
  "Generate a short follow-up question to clarify: " ++ query

/-- `ReflectionNode._generate_clarification`: a completion failure is
caught and replaced by a canned fallback question. -/
def generate_clarification (llm : String → Except String String)
    (query : String) : String :=
  match llm (clarify_prompt query) with
  | .ok clarification => strTrim clarification
  | .error _ => "Could you clarify your question about: " ++ query ++ "?"

/-- Value of `query` read by `ReflectionNode.run`. -/
def refl_query (inputs : SDict) : String := (inputs "query").getD ""

/-- Value of `answer` read by `ReflectionNode.run`:
`inputs.get("previous_output", "") or inputs.get("answer", "")`. -/
def refl_answer (inputs : SDict) : String :=
  pyOrS ((inputs "previous_output").getD "") ((inputs "answer").getD "")

/-- `ReflectionNode.run`. The second component of the result records
whether the completion capability was invoked. The evaluation call sits in
a `try` that re-raises as `NodeError`; the decision handling below it is
outside that `try`, so a non-object decode result raises `AttributeError`
at `parsed.get`. -/
def reflection_run (llm : String → Except String String)
    (jsonLoads : String → Option ReflJson) (inputs : SDict) :
    Except PyErr ReflReport × Bool :=
  let query := refl_query inputs
  let answer := refl_answer inputs
  if answer = "" then
    (.ok { decision := "ok", score := 1, comment := "No answer to review." }, false)
  else
    match llm (review_prompt query answer) with
    | .error _ => (.error (.nodeError "Reflection LLM evaluation failed."), true)
    | .ok raw =>
      match refl_safe_parse jsonLoads raw with
      | .nonObj => (.error (.attributeError "get"), true)
      | .obj p =>
        if p.decision = some "reask" then
          (.ok { decision := "reask",
                 clarify_question := some (generate_clarification llm query),
                 score := p.score.getD (3/5), comment := p.comment.getD "" }, true)
        else
          (.ok { decision := "ok", score := p.score.getD (9/10),
                 comment := p.comment.getD "" }, true)

/-! ## Feedback manager (`src/orchestrator/feedback_manager.py`) -/

/-- Feedback inputs read by `collect_feedback`, each key optional with the
documented default. The score arrives as a number (already convertible by
`float`). -/
structure FeedbackInputs where
  session_id : Option String := none
  decision : Option String := none
  score : Option ℚ := none
  comment : Option String := none
  source : Option String := none
  deriving Repr, DecidableEq

/-- Feedback entry assembled by `collect_feedback` (timestamp supplied by
the clock). -/
structure FeedbackEntry where
  session_id : String
  decision : String
  score : ℚ
  comment : String
  source : String
  timestamp : String
  deriving Repr, DecidableEq

/-- Result dictionary of `collect_feedback`. -/
structure FeedbackResult where
  status : String
  next_action : String
  feedback : FeedbackEntry
  deriving Repr, DecidableEq

/-- `FeedbackManager._decide_next_action`. -/
def decide_next_action (decision : String) (score : ℚ) : String :=
  if decision = "reask" ∨ score < 1/2 then "retry"
  else if 1/2 ≤ score ∧ score < 4/5 then "review"
  else "proceed"

/-- `FeedbackManager.collect_feedback` for a manager constructed with the
given `persist_func` (`none` models `persist_func=None`). A persistence
failure is re-raised as `NodeError`; without a persistence function the
write is skipped. -/
def collect_feedback (persist_func : Option (FeedbackEntry → Except PyErr Unit))
    (now : String) (inputs : FeedbackInputs) : Except PyErr FeedbackResult :=
  let entry : FeedbackEntry :=
    { session_id := inputs.session_id.getD "unknown"
      decision := inputs.decision.getD "ok"
      score := inputs.score.getD (4/5)
      comment := inputs.comment.getD ""
      source := inputs.source.getD "system"
      timestamp := now }
  match persist_func with
  | some f =>
    match f entry with
    | .ok _ =>
      .ok { status := "recorded",
            next_action := decide_next_action entry.decision entry.score,
            feedback := entry }
    | .error _ => .error (.nodeError "Failed to persist feedback.")
  | none =>
    .ok { status := "recorded",
          next_action := decide_next_action entry.decision entry.score,
          feedback := entry }

/-! ## Workflow graph builder (`src/orchestrator/langgraph_builder.py`) -/

/-- Handler resolved for a graph node by `_resolve_handler`; agent and
custom-node handlers are external code, recorded by class name, while the
feedback handler records the persistence function its manager was
constructed with. -/
inductive Handler where
  | agentRun (cls : String)
  | reflection
  | feedback (persist : Option (FeedbackEntry → Except PyErr Unit))
  | customNode (cls : String)

/-- One entry of a workflow's `nodes:` list; each of the `name`, `type`
and `class` keys may be absent (read with `.get`). -/
structure NodeSpec where
  name : Option String
  ntype : Option String
  ncls : Option String
  deriving Repr, DecidableEq

/-- One intent's workflow mapping: the `nodes` and `edges` keys may each
be absent, and an edge entry is a YAML list of strings. -/
structure Flow where
  nodes : Option (List NodeSpec)
  edges : Option (List (List String))
  deriving Repr, DecidableEq

/-- Python truthiness of the flow mapping (`if not flow`): the dictionary
is truthy iff it has at least one key. -/
def flowTruthy (f : Flow) : Bool := f.nodes.isSome || f.edges.isSome

/-- Parsed contents of one domain's workflow YAML file. -/
abbrev WorkflowConfig := String → Option Flow

/-- `LangGraphBuilder.load_config`: the file system is modelled by
`files`, with `none` meaning the domain's workflow file is absent. A falsy
domain argument is replaced by the default; a missing file falls back to
the default domain's file; a still-missing file is a `ConfigError`. -/
def load_config (files : String → Option WorkflowConfig)
    (defaultDomain domain : String) : Except PyErr WorkflowConfig :=
  let domain := pyOrS domain defaultDomain
  match files domain with
  | some c => .ok c
  | none =>
    match files defaultDomain with
    | some c => .ok c
    | none =>
      .error (.configError ("Workflow file not found for domain '" ++ domain ++ "'"))

/-- `LangGraphBuilder._resolve_handler`. The feedback branch constructs
`FeedbackManager()` with its default `persist_func=None`. -/
def resolve_handler (agentRegistry nodeRegistry : String → Option Unit)
    (node_type class_name : String) : Except PyErr Handler :=
  if node_type = "agent" then
    match agentRegistry class_name with
    | some _ => .ok (.agentRun class_name)
    | none => .error (.valueError ("Agent class '" ++ class_name ++ "' not registered."))
  else if node_type = "node" then
    if class_name = "ReflectionNode" then .ok .reflection
    else if class_name = "FeedbackManager" then .ok (.feedback none)
    else
      match nodeRegistry class_name with
      | some _ => .ok (.customNode class_name)
      | none => .error (.valueError ("Custom node '" ++ class_name ++ "' not registered."))
  else .error (.valueError ("Unknown node type '" ++ node_type ++ "'"))

/-- Python truthiness of an optional string value read with `.get`. -/
def truthyOptS (o : Option String) : Bool :=
  match o with
  | none => false
  | some s => s != ""

/-- Node loop of `build_graph`: entries with a falsy name, type or class
are skipped; a resolution failure is re-raised as `NodeError` tagged with
the node name and domain. -/
def build_nodes (agentRegistry nodeRegistry : String → Option Unit)
    (domain : String) : List NodeSpec → Except PyErr (List (String × Handler))
  | [] => .ok []
  | n :: rest =>
    if truthyOptS n.name && truthyOptS n.ntype && truthyOptS n.ncls then
      match resolve_handler agentRegistry nodeRegistry (n.ntype.getD "") (n.ncls.getD "") with
      | .ok h =>
        match build_nodes agentRegistry nodeRegistry domain rest with
        | .ok t => .ok ((n.name.getD "", h) :: t)
        | .error e => .error e
      | .error e =>
        .error (.nodeError ("Failed to initialize node '" ++ n.name.getD "" ++
          "' in domain '" ++ domain ++ "': " ++ e.str))
    else
      build_nodes agentRegistry nodeRegistry domain rest

/-- Edge loop of `build_graph`: a two-element list is an unconditional
edge; a three-element list whose third element contains `"if:"` is a
conditional edge stored as `(src, condition key, dst)`; anything else is
skipped with a warning. -/
def build_edges : List (List String) →
    List (String × String) × List (String × String × String)
  | [] => ([], [])
  | e :: rest =>
    let (es, ces) := build_edges rest
    match e with
    | [src, dst] => ((src, dst) :: es, ces)
    | [src, dst, cond] =>
      if isSubstrB "if:".data cond.data then
        (es, (src, strTrim (cond.replace "if:" ""), dst) :: ces)
      else (es, ces)
    | _ => (es, ces)

/-- Entry-point selection of `build_graph`: `nodes[0]["name"]` is only
read when the nodes list is non-empty, and raises `KeyError` when the
first entry has no `name` key. -/
def graph_entry : List NodeSpec → Except PyErr (Option String)
  | [] => .ok none
  | n :: _ =>
    match n.name with
    | some s => .ok (some s)
    | none => .error (.keyError "name")

/-- Graph assembled by `build_graph` (the LangGraph `StateGraph` contents
this code populates). -/
structure BuiltGraph where
  nodes : List (String × Handler)
  edges : List (String × String)
  cond_edges : List (String × String × String)
  entry : Option String

/-- `LangGraphBuilder.build_graph`. -/
def build_graph (files : String → Option WorkflowConfig)
    (agentRegistry nodeRegistry : String → Option Unit)
    (defaultDomain intent domain : String) : Except PyErr BuiltGraph :=
  match load_config files defaultDomain domain with
  | .error e => .error e
  | .ok config =>
    match config intent with
    | none =>
      .error (.configError ("No workflow found for intent '" ++ intent ++
        "' in domain '" ++ domain ++ "'"))
    | some flow =>
      if flowTruthy flow then
        match build_nodes agentRegistry nodeRegistry domain (flow.nodes.getD []) with
        | .error e => .error e
        | .ok handlers =>
          let (es, ces) := build_edges (flow.edges.getD [])
          match graph_entry (flow.nodes.getD []) with
          | .error e => .error e
          | .ok entry => .ok ⟨handlers, es, ces, entry⟩
      else
        .error (.configError ("No workflow found for intent '" ++ intent ++
          "' in domain '" ++ domain ++ "'"))

/-! ## Orchestration pipeline (`src/orchestrator/impl/orchestrator_impl.py`) -/

/-- Initial graph input built by `run_graph`:
`{"query": query, "domain": domain, **state}`, a shallow right-biased
merge in which keys of the loaded state override the two literals. -/
def mkInputs (query domain : String) (state : SDict) : SDict :=
  fun k =>
    match state k with
    | some v => some v
    | none =>
      if k = "query" then some query
      else if k = "domain" then some domain
      else none

/-- `OrchestratorImpl.run_graph`, with the state manager, builder, engine
invocation and vector-memory update as oracles. Any exception inside is
re-raised as `NodeError("Graph execution failed.")`. -/
def run_graph (load_state : String → Except PyErr SDict)
    (build : String → String → Except PyErr BuiltGraph)
    (compileInvoke : BuiltGraph → SDict → Except PyErr SDict)
    (update_memory : String → SDict → Except PyErr Unit)
    (intent query session_id domain : String) : Except PyErr SDict :=
  let body : Except PyErr SDict :=
    match load_state session_id with
    | .error e => .error e
    | .ok state =>
      match build intent domain with
      | .error e => .error e
      | .ok graph =>
        match compileInvoke graph (mkInputs query domain state) with
        | .error e => .error e
        | .ok result =>
          match update_memory session_id result with
          | .error e => .error e
          | .ok _ => .ok result
  match body with
  | .ok r => .ok r
  | .error _ => .error (.nodeError "Graph execution failed.")

/-- Value returned by `handle_user_query`: the success dictionary or the
structured error dictionary produced by `on_error`. -/
inductive HandleOut where
  | success (domain intent : String) (result : SDict)
  | errorResp (status session_id domain error : String)

/-- `OrchestratorImpl.on_error`: the centralized error handler builds the
structured error dictionary, substituting the default domain for a falsy
one. -/
def on_error (defaultDomain : String) (e : PyErr) (session_id : String)
    (domainArg : Option String) : HandleOut :=
  .errorResp "error" session_id (pyOrS (domainArg.getD "") defaultDomain) e.str

/-- Body of `handle_user_query` up to the return statement: pre-process
(trim), classify, run the graph, post-process (identity), save state. -/
def handle_body (classify : String → Option String → Except PyErr RouteResult)
    (run_g : String → String → String → String → Except PyErr SDict)
    (save_state : String → SDict → Except PyErr Unit)
    (session_id query : String) (domainArg : Option String) :
    Except PyErr (String × String × SDict) :=
  let clean := strTrim query
  match classify clean domainArg with
  | .error e => .error e
  | .ok route =>
    match run_g route.intent clean session_id route.domain with
    | .error e => .error e
    | .ok result =>
      let final := result
      match save_state session_id final with
      | .error e => .error e
      | .ok _ => .ok (route.domain, route.intent, final)

/-- `OrchestratorImpl.handle_user_query`: the whole sequence runs inside
one `try`, and any exception is converted by `on_error`. -/
def handle_user_query (classify : String → Option String → Except PyErr RouteResult)
    (run_g : String → String → String → String → Except PyErr SDict)
    (save_state : String → SDict → Except PyErr Unit)
    (defaultDomain session_id query : String) (domainArg : Option String) :
    HandleOut :=
  match handle_body classify run_g save_state session_id query domainArg with
  | .ok (d, i, r) => .success d i r
  | .error e => on_error defaultDomain e session_id domainArg

/-! ## Theorems -/

/-- Claim C7: for every decision and score, the feedback step's
`next_action` is `retry` iff the decision is `reask` or the score is below
0.5, `review` iff the decision is not `reask` and the score lies in
[0.5, 0.8), and `proceed` otherwise; in particular score 0.4 yields retry,
0.5 and 0.79 yield review, 0.8 yields proceed, and decision `reask` forces
retry regardless of score. -/
theorem feedback_next_action_policy (d : String) (s : ℚ) :
    (decide_next_action d s = "retry" ↔ (d = "reask" ∨ s < 1/2)) ∧
    (decide_next_action d s = "review" ↔ (d ≠ "reask" ∧ 1/2 ≤ s ∧ s < 4/5)) ∧
    (decide_next_action d s = "proceed" ↔ (d ≠ "reask" ∧ 4/5 ≤ s)) ∧
    decide_next_action "reask" s = "retry" ∧
    decide_next_action "ok" (2/5) = "retry" ∧
    decide_next_action "ok" (1/2) = "review" ∧
    decide_next_action "ok" (79/100) = "review" ∧
    decide_next_action "ok" (4/5) = "proceed" := by
  have hok : ("ok" : String) ≠ "reask" := by decide
  refine ⟨?_, ?_, ?_, by simp [decide_next_action], by norm_num [decide_next_action, hok],
    by norm_num [decide_next_action, hok], by norm_num [decide_next_action, hok],
    by norm_num [decide_next_action, hok]⟩
  · unfold decide_next_action
    split_ifs with h1 h2
    · exact iff_of_true rfl h1
    · exact iff_of_false (by decide) h1
    · exact iff_of_false (by decide) h1
  · unfold decide_next_action
    split_ifs with h1 h2
    · refine iff_of_false (by decide) ?_
      rintro ⟨hne, hge, _⟩
      rcases h1 with h | h
      · exact hne h
      · exact absurd h (not_lt.mpr hge)
    · exact iff_of_true rfl ⟨fun hd => h1 (Or.inl hd), h2⟩
    · refine iff_of_false (by decide) ?_
      rintro ⟨_, hge, hlt⟩
      exact h2 ⟨hge, hlt⟩
  · unfold decide_next_action
    split_ifs with h1 h2
    · refine iff_of_false (by decide) ?_
      rintro ⟨hne, hge⟩
      rcases h1 with h | h
      · exact hne h
      · linarith
    · refine iff_of_false (by decide) ?_
      rintro ⟨_, hge⟩
      linarith [h2.2]
    · push_neg at h1 h2
      exact iff_of_true rfl ⟨h1.1, h2 h1.2⟩

/-- Claim C10: the graph builder resolves the feedback node as a manager
constructed with no persistence callback, and with no persistence callback
`collect_feedback` skips persistence, can never raise the
persistence-failure error, and always returns a result with status
`recorded`. -/
theorem feedback_node_no_persistence
    (agentRegistry nodeRegistry : String → Option Unit) (now : String)
    (inputs : FeedbackInputs) :
    resolve_handler agentRegistry nodeRegistry "node" "FeedbackManager" =
      .ok (.feedback none) ∧
    collect_feedback none now inputs =
      .ok { status := "recorded",
            next_action := decide_next_action (inputs.decision.getD "ok")
              (inputs.score.getD (4/5)),
            feedback := { session_id := inputs.session_id.getD "unknown",
                          decision := inputs.decision.getD "ok",
                          score := inputs.score.getD (4/5),
                          comment := inputs.comment.getD "",
                          source := inputs.source.getD "system",
                          timestamp := now } } :=
  ⟨rfl, rfl⟩

/-- Claim C9: when both the `previous_output` and `answer` values are
absent or empty, the reflection step returns
`{decision: ok, score: 1.0, comment: "No answer to review."}` without
invoking the completion capability. -/
theorem reflection_skips_empty_answer (llm : String → Except String String)
    (jsonLoads : String → Option ReflJson) (inputs : SDict)
    (hp : inputs "previous_output" = none ∨ inputs "previous_output" = some "")
    (ha : inputs "answer" = none ∨ inputs "answer" = some "") :
    reflection_run llm jsonLoads inputs =
      (.ok { decision := "ok", score := 1, comment := "No answer to review." },
       false) := by
  have h : refl_answer inputs = "" := by
    unfold refl_answer pyOrS
    rcases hp with hp | hp <;> rcases ha with ha | ha <;> simp [hp, ha]
  simp [reflection_run, h]

/-- Witness for C9 at the empty input dictionary. -/
theorem reflection_skips_empty_answer_witness :
    reflection_run (fun _ => .error "down") (fun _ => none) (fun _ => none) =
      (.ok { decision := "ok", score := 1, comment := "No answer to review." },
       false) :=
  reflection_skips_empty_answer _ _ _ (Or.inl rfl) (Or.inl rfl)

/-- Claim C3: the initial graph input built by `run_graph` is the mapping
`{query, domain}` shallow-merged right-biased with the loaded prior
session state, so persisted `query` or `domain` keys override the fresh
request values in the inputs handed to the graph (exhibited by running the
graph through an echoing engine). -/
theorem run_graph_state_overrides_inputs
    (build : String → String → Except PyErr BuiltGraph) (g : BuiltGraph)
    (intent query session_id domain : String) (state : SDict) (v w : String)
    (hq : state "query" = some v) (hd : state "domain" = some w)
    (hb : build intent domain = .ok g) :
    mkInputs query domain state "query" = some v ∧
    mkInputs query domain state "domain" = some w ∧
    run_graph (fun _ => .ok state) build (fun _ s => .ok s) (fun _ _ => .ok ())
        intent query session_id domain = .ok (mkInputs query domain state) := by
  refine ⟨?_, ?_, ?_⟩
  · unfold mkInputs; rw [hq]
  · unfold mkInputs; rw [hd]
  · simp [run_graph, hb]

/-- Stale persisted state used by the C3 witness. -/
def stateC3 : SDict :=
  fun k =>
    if k = "query" then some "stale query"
    else if k = "domain" then some "stale domain" else none

/-- Witness for C3: with persisted state holding `query = "stale query"`
and `domain = "stale domain"`, the fresh request values are overridden. -/
theorem run_graph_state_overrides_inputs_witness :
    mkInputs "fresh query" "hello" stateC3 "query" = some "stale query" ∧
    mkInputs "fresh query" "hello" stateC3 "domain" = some "stale domain" ∧
    run_graph (fun _ => .ok stateC3) (fun _ _ => .ok ⟨[], [], [], none⟩)
        (fun _ s => .ok s) (fun _ _ => .ok ()) "qa" "fresh query" "s1" "hello" =
      .ok (mkInputs "fresh query" "hello" stateC3) :=
  run_graph_state_overrides_inputs (fun _ _ => .ok ⟨[], [], [], none⟩)
    ⟨[], [], [], none⟩ "qa" "fresh query" "s1" "hello" stateC3
    "stale query" "stale domain" rfl rfl rfl

/-- Claim C8: any exception raised by any stage of the pipeline sequence
(classification, the graph phase that loads state, builds and runs the
graph, or state saving) is caught at the top level of
`handle_user_query` and converted into the structured error mapping with
status `error`, the session id, a domain, and the error text; no exception
escapes (`handle_user_query` is total into plain result values). -/
theorem handle_user_query_catches_all
    (classify : String → Option String → Except PyErr RouteResult)
    (run_g : String → String → String → String → Except PyErr SDict)
    (save_state : String → SDict → Except PyErr Unit)
    (defaultDomain session_id query : String) (domainArg : Option String)
    (e : PyErr)
    (h : classify (strTrim query) domainArg = .error e ∨
      (∃ route, classify (strTrim query) domainArg = .ok route ∧
        run_g route.intent (strTrim query) session_id route.domain = .error e) ∨
      (∃ route result, classify (strTrim query) domainArg = .ok route ∧
        run_g route.intent (strTrim query) session_id route.domain = .ok result ∧
        save_state session_id result = .error e)) :
    handle_user_query classify run_g save_state defaultDomain session_id query
        domainArg =
      .errorResp "error" session_id (pyOrS (domainArg.getD "") defaultDomain)
        e.str := by
  unfold handle_user_query handle_body on_error
  rcases h with h | ⟨route, h1, h2⟩ | ⟨route, result, h1, h2, h3⟩
  · simp [h]
  · simp [h1, h2]
  · simp [h1, h2, h3]

/-- Witness for C8: a failing state load inside the graph phase is turned
into the structured error response. -/
theorem handle_user_query_catches_all_witness :
    handle_user_query (fun _ _ => .ok (default_route "hello"))
      (fun _ _ _ _ => .error (.memoryError "Failed to load state."))
      (fun _ _ => .ok ()) "hello" "s1" " hi " none =
      .errorResp "error" "s1" "hello" "MemoryError: Failed to load state." :=
  handle_user_query_catches_all _ _ _ "hello" "s1" " hi " none
    (.memoryError "Failed to load state.")
    (Or.inr (Or.inl ⟨default_route "hello", rfl, rfl⟩))

/-- Soundness and completeness of the rule-pass scan: it yields a pair iff
some intent of the table owns a keyword that is a substring of the
prepared query. -/
theorem firstRuleMatch_isSome_iff (intents : IntentTable) (ql : String) :
    (firstRuleMatch intents ql).isSome ↔
      ∃ p ∈ intents, ∃ kw ∈ p.2.keywords.getD [],
        isSubstrB (strLower kw).data ql.data := by
  induction intents with
  | nil => simp [firstRuleMatch]
  | cons hd tl ih =>
    obtain ⟨i, m⟩ := hd
    rw [firstRuleMatch]
    cases hfind : (m.keywords.getD []).find?
        (fun kw => isSubstrB (strLower kw).data ql.data) with
    | some kw =>
      simp only [Option.isSome_some, true_iff]
      refine ⟨(i, m), List.mem_cons_self _ _, kw, List.mem_of_find?_eq_some hfind, ?_⟩
      simpa using List.find?_some hfind
    | none =>
      rw [ih]
      constructor
      · rintro ⟨p, hp, kw, hkw, hsub⟩
        exact ⟨p, List.mem_cons_of_mem _ hp, kw, hkw, hsub⟩
      · rintro ⟨p, hp, kw, hkw, hsub⟩
        rcases List.mem_cons.mp hp with rfl | hp
        · have hfalse := List.find?_eq_none.mp hfind kw hkw
          simp only [Bool.not_eq_true] at hfalse
          rw [hfalse] at hsub
          cases hsub
        · exact ⟨p, hp, kw, hkw, hsub⟩

/-- Claim C4: whenever some configured keyword of the resolved domain is a
substring of the trimmed, lower-cased query, `classify_intent` returns
confidence 1.0, method `rule` and the intent owning the first matching
keyword in table-declared order, and the completion capability is not
invoked (the recorded invocation flag is `false`, for every oracle). -/
theorem classify_rule_short_circuit (intentConfigs : String → Option IntentTable)
    (defaultDomain : String) (llm : String → Except String String)
    (jsonLoads : String → Option RouteJson) (query : String)
    (domainArg : Option String) (intents : IntentTable)
    (hcfg : intentConfigs (resolve_domain intentConfigs defaultDomain domainArg) =
      some intents)
    (hmatch : ∃ p ∈ intents, ∃ kw ∈ p.2.keywords.getD [],
      isSubstrB (strLower kw).data (strTrim (strLower query)).data) :
    ∃ i kw, firstRuleMatch intents (strTrim (strLower query)) = some (i, kw) ∧
      classify_intent intentConfigs defaultDomain llm jsonLoads query domainArg =
        .ok ({ domain := resolve_domain intentConfigs defaultDomain domainArg,
               intent := i, confidence := 1, method := "rule",
               matched_keyword := some kw }, false) := by
  have hsome : (firstRuleMatch intents (strTrim (strLower query))).isSome :=
    (firstRuleMatch_isSome_iff _ _).mpr hmatch
  obtain ⟨⟨i, kw⟩, hik⟩ := Option.isSome_iff_exists.mp hsome
  refine ⟨i, kw, hik, ?_⟩
  simp only [classify_intent, hcfg, hik]

/-- Intent table used by the router witnesses. -/
def cfgHello : String → Option IntentTable :=
  fun d =>
    if d = "hello"
    then some [("greeting", ⟨some ["hello", "hi"], some "greet the user"⟩)]
    else none

/-- Witness for C4: the query `"Hello there"` keyword-matches `hello` and
classification short-circuits to the rule result with a dead completion
capability. -/
theorem classify_rule_short_circuit_witness :
    cfgHello (resolve_domain cfgHello "hello" none) =
      some [("greeting", ⟨some ["hello", "hi"], some "greet the user"⟩)] ∧
    (∃ p ∈ [(("greeting" : String),
        (⟨some ["hello", "hi"], some "greet the user"⟩ : IntentMeta))],
      ∃ kw ∈ p.2.keywords.getD [],
        isSubstrB (strLower kw).data (strTrim (strLower "Hello there")).data) ∧
    ∃ i kw, firstRuleMatch [("greeting", ⟨some ["hello", "hi"], some "greet the user"⟩)]
        (strTrim (strLower "Hello there")) = some (i, kw) ∧
      classify_intent cfgHello "hello" (fun _ => .error "down") (fun _ => none)
          "Hello there" none =
        .ok ({ domain := resolve_domain cfgHello "hello" none, intent := i,
               confidence := 1, method := "rule", matched_keyword := some kw },
             false) :=
  ⟨rfl, by decide,
   classify_rule_short_circuit cfgHello "hello" (fun _ => .error "down")
     (fun _ => none) "Hello there" none _ rfl (by decide)⟩

/-- Counterexample to claim C1: with no keyword match and a completion
reply that is not JSON, classification does not fall through to the
default fallback — the safe-parse substitute `{intent: qa, confidence:
0.5}` is returned through the LLM branch with method `llm`. -/
theorem classify_parse_failure_cex :
    classify_intent cfgHello "hello" (fun _ => .ok "this is not json")
        (fun _ => none) "what is the weather" (some "hello") =
      .ok ({ domain := "hello", intent := "qa", confidence := 1/2,
             method := "llm" }, true) ∧
    "llm" ≠ "default" := by
  constructor
  · rfl
  · decide

/-- Claim C1 (amended): with no keyword match, a completion-call failure
is swallowed and classification falls through to the default fallback
`{intent: qa, confidence: 0.5, method: default}`; but a parse failure of a
successful completion reply is swallowed inside safe-parse, which
substitutes `{intent: qa, confidence: 0.5}`, and classification returns it
with method `llm`, not `default`. -/
theorem classify_llm_fallback_paths (intentConfigs : String → Option IntentTable)
    (defaultDomain : String) (llm : String → Except String String)
    (jsonLoads : String → Option RouteJson) (query : String)
    (domainArg : Option String) (intents : IntentTable)
    (hcfg : intentConfigs (resolve_domain intentConfigs defaultDomain domainArg) =
      some intents)
    (hnorule : firstRuleMatch intents (strTrim (strLower query)) = none) :
    (∀ e, llm (build_llm_prompt query
          (resolve_domain intentConfigs defaultDomain domainArg) intents) =
        .error e →
      classify_intent intentConfigs defaultDomain llm jsonLoads query domainArg =
        .ok (default_route (resolve_domain intentConfigs defaultDomain domainArg),
             true)) ∧
    (∀ raw, llm (build_llm_prompt query
          (resolve_domain intentConfigs defaultDomain domainArg) intents) =
        .ok raw →
      jsonLoads raw = none →
      classify_intent intentConfigs defaultDomain llm jsonLoads query domainArg =
        .ok ({ domain := resolve_domain intentConfigs defaultDomain domainArg,
               intent := "qa", confidence := 1/2, method := "llm" }, true)) := by
  constructor
  · intro e he
    simp [classify_intent, hcfg, hnorule, he]
  · intro raw hraw hparse
    simp [classify_intent, hcfg, hnorule, hraw, safe_parse, hparse]

/-- Witness for C1 (amended), exercising both fallback paths on the
`hello` domain with the non-matching query `"ping"`. -/
theorem classify_llm_fallback_paths_witness :
    classify_intent cfgHello "hello" (fun _ => .error "timeout") (fun _ => none)
        "ping" none =
      .ok (default_route (resolve_domain cfgHello "hello" none), true) ∧
    classify_intent cfgHello "hello" (fun _ => .ok "gibberish") (fun _ => none)
        "ping" none =
      .ok ({ domain := resolve_domain cfgHello "hello" none, intent := "qa",
             confidence := 1/2, method := "llm" }, true) :=
  ⟨(classify_llm_fallback_paths cfgHello "hello" (fun _ => .error "timeout")
      (fun _ => none) "ping" none _ rfl rfl).1 "timeout" rfl,
   (classify_llm_fallback_paths cfgHello "hello" (fun _ => .ok "gibberish")
      (fun _ => none) "ping" none _ rfl rfl).2 "gibberish" rfl rfl⟩

/-- Workflow files of a single domain whose `qa` workflow explicitly
declares zero nodes (`nodes: []`, `edges: []`). -/
def filesC2 : String → Option WorkflowConfig :=
  fun d =>
    if d = "hello"
    then some (fun i => if i = "qa" then some ⟨some [], some []⟩ else none)
    else none

/-- Counterexample to claim C2: a workflow configuration that declares
zero nodes (an explicit empty `nodes` list) does not fail to build —
`build_graph` returns a graph with no nodes and no entry point. -/
theorem build_graph_zero_nodes_cex :
    build_graph filesC2 (fun _ => none) (fun _ => none) "hello" "qa" "hello" =
      .ok ⟨[], [], [], none⟩ := rfl

/-- Claim C2 (amended): `build_graph` raises a configuration error exactly
when the intent's workflow entry is absent or an entirely empty mapping;
an entry that explicitly declares an empty node list builds successfully,
yielding a graph with no nodes and no entry point (so no handler can have
been invoked, but the zero-node rejection is deferred to graph compilation
inside `run_graph` rather than raised while building). -/
theorem build_graph_empty_flow_policy (files : String → Option WorkflowConfig)
    (agentRegistry nodeRegistry : String → Option Unit)
    (defaultDomain intent domain : String) (cfg : WorkflowConfig)
    (hload : load_config files defaultDomain domain = .ok cfg) :
    (cfg intent = none →
      build_graph files agentRegistry nodeRegistry defaultDomain intent domain =
        .error (.configError ("No workflow found for intent '" ++ intent ++
          "' in domain '" ++ domain ++ "'"))) ∧
    (∀ flow, cfg intent = some flow → flowTruthy flow = false →
      build_graph files agentRegistry nodeRegistry defaultDomain intent domain =
        .error (.configError ("No workflow found for intent '" ++ intent ++
          "' in domain '" ++ domain ++ "'"))) ∧
    (∀ flow, cfg intent = some flow → flow.nodes = some [] →
      flowTruthy flow = true →
      build_graph files agentRegistry nodeRegistry defaultDomain intent domain =
        .ok ⟨[], (build_edges (flow.edges.getD [])).1,
             (build_edges (flow.edges.getD [])).2, none⟩) := by
  refine ⟨?_, ?_, ?_⟩
  · intro hmiss
    simp [build_graph, hload, hmiss]
  · intro flow hflow hfalsy
    simp [build_graph, hload, hflow, hfalsy]
  · intro flow hflow hnodes htruthy
    simp [build_graph, hload, hflow, htruthy, hnodes, build_nodes, graph_entry]

/-- Workflow file for the C2 witness: an entirely empty `empty` entry and
a `zero` entry with no nodes but one unconditional edge. -/
def cfgC2w : WorkflowConfig :=
  fun i =>
    if i = "empty" then some ⟨none, none⟩
    else if i = "zero" then some ⟨some [], some [["a", "b"]]⟩
    else none

/-- Workflow files for the C2 witness. -/
def filesC2w : String → Option WorkflowConfig :=
  fun d => if d = "hello" then some cfgC2w else none

/-- Witness for C2 (amended): the missing and empty entries raise the
configuration error while the zero-node entry builds. -/
theorem build_graph_empty_flow_policy_witness :
    build_graph filesC2w (fun _ => none) (fun _ => none) "hello" "missing" "hello" =
      .error (.configError
        "No workflow found for intent 'missing' in domain 'hello'") ∧
    build_graph filesC2w (fun _ => none) (fun _ => none) "hello" "empty" "hello" =
      .error (.configError
        "No workflow found for intent 'empty' in domain 'hello'") ∧
    build_graph filesC2w (fun _ => none) (fun _ => none) "hello" "zero" "hello" =
      .ok ⟨[], [("a", "b")], [], none⟩ :=
  ⟨(build_graph_empty_flow_policy filesC2w (fun _ => none) (fun _ => none)
      "hello" "missing" "hello" cfgC2w rfl).1 rfl,
   (build_graph_empty_flow_policy filesC2w (fun _ => none) (fun _ => none)
      "hello" "empty" "hello" cfgC2w rfl).2.1 ⟨none, none⟩ rfl rfl,
   (build_graph_empty_flow_policy filesC2w (fun _ => none) (fun _ => none)
      "hello" "zero" "hello" cfgC2w rfl).2.2 ⟨some [], some [["a", "b"]]⟩
      rfl rfl rfl⟩

/-- Workflow spec used by the C5 counterexample: the default domain's
`greeting` workflow, a single built-in reflection node. -/
def flowC5 : Flow := ⟨some [⟨some "n1", some "node", some "ReflectionNode"⟩], some []⟩

/-- Workflow files used by the C5 counterexample: domain `beta` has a
workflow file (for some other intent), the default domain `hello` has a
`greeting` workflow. -/
def filesC5 : String → Option WorkflowConfig :=
  fun d =>
    if d = "beta"
    then some (fun i => if i = "other" then some ⟨some [], some []⟩ else none)
    else if d = "hello"
    then some (fun i => if i = "greeting" then some flowC5 else none)
    else none

/-- Counterexample to claim C5: the `greeting` spec is absent for domain
`beta` and present for the default domain `hello`, yet building for
`beta` raises a configuration error instead of falling back to the
default domain's same-intent spec (which does build, second conjunct). -/
theorem build_graph_intent_fallback_cex :
    build_graph filesC5 (fun _ => none) (fun _ => none) "hello" "greeting" "beta" =
      .error (.configError
        "No workflow found for intent 'greeting' in domain 'beta'") ∧
    build_graph filesC5 (fun _ => none) (fun _ => none) "hello" "greeting" "hello" =
      .ok ⟨[("n1", .reflection)], [], [], some "n1"⟩ :=
  ⟨rfl, rfl⟩

/-- Claim C5 (amended): the fallback happens at the granularity of the
whole per-domain workflow file, not per intent: when the named domain's
workflow file is absent the default domain's file is loaded, and when that
is also absent a configuration error is raised; the intent is then looked
up only in the single loaded file, and a file that lacks the intent's
entry raises a configuration error with no per-intent fallback to the
default domain. -/
theorem build_graph_file_level_fallback (files : String → Option WorkflowConfig)
    (agentRegistry nodeRegistry : String → Option Unit)
    (defaultDomain intent domain : String) :
    (∀ cfg, files (pyOrS domain defaultDomain) = none →
      files defaultDomain = some cfg →
      load_config files defaultDomain domain = .ok cfg) ∧
    (files (pyOrS domain defaultDomain) = none → files defaultDomain = none →
      load_config files defaultDomain domain =
        .error (.configError ("Workflow file not found for domain '" ++
          pyOrS domain defaultDomain ++ "'"))) ∧
    (∀ cfg, files (pyOrS domain defaultDomain) = some cfg → cfg intent = none →
      build_graph files agentRegistry nodeRegistry defaultDomain intent domain =
        .error (.configError ("No workflow found for intent '" ++ intent ++
          "' in domain '" ++ domain ++ "'"))) := by
  refine ⟨?_, ?_, ?_⟩
  · intro cfg hmiss hdef
    simp [load_config, hmiss, hdef]
  · intro hmiss hdef
    simp [load_config, hmiss, hdef]
  · intro cfg hfile hintent
    have hload : load_config files defaultDomain domain = .ok cfg := by
      simp [load_config, hfile]
    simp [build_graph, hload, hintent]

/-- Witness for C5 (amended): a missing `beta` workflow file loads the
default domain's file; with no files at all loading errors; a loaded file
that lacks the intent raises the no-workflow error. -/
theorem build_graph_file_level_fallback_witness :
    load_config filesC2w "hello" "beta" = .ok cfgC2w ∧
    load_config (fun _ => none) "hello" "beta" =
      .error (.configError "Workflow file not found for domain 'beta'") ∧
    build_graph filesC5 (fun _ => none) (fun _ => none) "hello" "greeting" "beta" =
      .error (.configError
        "No workflow found for intent 'greeting' in domain 'beta'") :=
  ⟨(build_graph_file_level_fallback filesC2w (fun _ => none) (fun _ => none)
      "hello" "greeting" "beta").1 cfgC2w rfl rfl,
   (build_graph_file_level_fallback (fun _ => none) (fun _ => none) (fun _ => none)
      "hello" "greeting" "beta").2.1 rfl rfl,
   (build_graph_file_level_fallback filesC5 (fun _ => none) (fun _ => none)
      "hello" "greeting" "beta").2.2
      (fun i => if i = "other" then some ⟨some [], some []⟩ else none) rfl rfl⟩

/-- Completion oracle for the C6 counterexample: the clarification prompt
fails, every other prompt (the evaluation) succeeds with `"RAW"`. -/
def llmC6 : String → Except String String :=
  fun p => if p = clarify_prompt "q" then .error "boom" else .ok "RAW"

/-- JSON oracle for the C6 counterexample: `"RAW"` decodes to a reask
verdict. -/
def loadsC6 : String → Option ReflJson :=
  fun s =>
    if s = "RAW" then some (.obj ⟨some (3/10), some "reask", some "too vague"⟩)
    else none

/-- Reflection inputs for the C6 counterexample. -/
def inputsC6 : SDict :=
  fun k =>
    if k = "query" then some "q"
    else if k = "previous_output" then some "a" else none

/-- Counterexample to claim C6: when the evaluation verdict is reask and
the second completion call (the clarifying question) fails, the failure is
swallowed — the step completes normally with the canned fallback question
instead of propagating the error. -/
theorem reflection_clarify_swallow_cex :
    reflection_run llmC6 loadsC6 inputsC6 =
      (.ok { decision := "reask", score := 3/10, comment := "too vague",
             clarify_question :=
               some "Could you clarify your question about: q?" }, true) := rfl

/-- Claim C6 (amended): a failure of the first (evaluation) completion
call is fatal for the step and propagated as a node error; but a failure
of the second completion call that generates the clarifying follow-up
question on decision reask is swallowed inside the clarification helper,
which substitutes the canned fallback question, and the step returns
normally. -/
theorem reflection_completion_failure_paths (llm : String → Except String String)
    (jsonLoads : String → Option ReflJson) (inputs : SDict)
    (hans : refl_answer inputs ≠ "") :
    (∀ e, llm (review_prompt (refl_query inputs) (refl_answer inputs)) =
        .error e →
      reflection_run llm jsonLoads inputs =
        (.error (.nodeError "Reflection LLM evaluation failed."), true)) ∧
    (∀ raw p e, llm (review_prompt (refl_query inputs) (refl_answer inputs)) =
        .ok raw →
      refl_safe_parse jsonLoads raw = .obj p → p.decision = some "reask" →
      llm (clarify_prompt (refl_query inputs)) = .error e →
      reflection_run llm jsonLoads inputs =
        (.ok { decision := "reask",
               clarify_question := some ("Could you clarify your question about: "
                 ++ refl_query inputs ++ "?"),
               score := p.score.getD (3/5), comment := p.comment.getD "" },
         true)) := by
  constructor
  · intro e he
    simp [reflection_run, hans, he]
  · intro raw p e hraw hparse hreask hclarify
    simp [reflection_run, hans, hraw, hparse, hreask, generate_clarification,
      hclarify]

/-- Witness for C6 (amended), exercising both paths at concrete inputs:
a dead completion capability propagates, and a reask verdict whose
clarification call fails yields the fallback question. -/
theorem reflection_completion_failure_paths_witness :
    reflection_run (fun _ => .error "down") loadsC6 inputsC6 =
      (.error (.nodeError "Reflection LLM evaluation failed."), true) ∧
    reflection_run llmC6 loadsC6 inputsC6 =
      (.ok { decision := "reask",
             clarify_question :=
               some "Could you clarify your question about: q?",
             score := 3/10, comment := "too vague" }, true) :=
  ⟨(reflection_completion_failure_paths (fun _ => .error "down") loadsC6 inputsC6
      (by decide)).1 "down" rfl,
   (reflection_completion_failure_paths llmC6 loadsC6 inputsC6 (by decide)).2
      "RAW" ⟨some (3/10), some "reask", some "too vague"⟩ "boom" rfl rfl rfl rfl⟩

end AgentFlow
